import Mathlib

set_option maxRecDepth 100000

/-- Dynamic document values as decoded from the YAML configuration file.
Scalars, lists and string-keyed mappings cover every shape the config
loader in src/config/config.go inspects.  A missing key is represented by
the absence of an entry (viper returns a nil interface both for a missing
key and for an explicit YAML null, and the loader only compares against
nil, so the two are observationally identical). -/
inductive Value where
  | vstr : String → Value
  | vint : Int → Value
  | vbool : Bool → Value
  | vlist : List Value → Value
  | vmap : List (String × Value) → Value

/-- A decoded configuration document: the top-level string-keyed mapping. -/
abbrev Doc := List (String × Value)

/-- Lookup of a key in a string-keyed mapping (first match wins). -/
def mapGet (m : List (String × Value)) (k : String) : Option Value :=
  match m with
  | [] => none
  | (k2, v) :: rest => if k2 = k then some v else mapGet rest k

/-- Model of viper's Get on a dotted path (the path pre-split on dots):
descend through nested mappings; nil when any step is missing or the
intermediate value is not a mapping. -/
def viperGet (m : List (String × Value)) : List String → Option Value
  | [] => none
  | [k] => mapGet m k
  | k :: rest =>
    match mapGet m k with
    | some (Value.vmap m2) => viperGet m2 rest
    | _ => none

/-- Model of spf13 cast.ToString as used by viper's GetString: scalars
print themselves; lists and mappings make ToStringE fail, and ToString
discards the error and yields the empty string. -/
def castToString : Value → String
  | Value.vstr s => s
  | Value.vint n => toString n
  | Value.vbool b => if b then "true" else "false"
  | Value.vlist _ => ""
  | Value.vmap _ => ""

/-- Model of viper's GetString on a dotted path: cast.ToString of Get,
empty string when the path is absent. -/
def goGetString (m : Doc) (path : List String) : String :=
  match viperGet m path with
  | none => ""
  | some v => castToString v

/-- Model of spf13 cast.ToSlice followed by the Go nil test done by the
caller.  ToSliceE starts from a nil Go slice and appends the input's
elements, so a missing value (nil input, default case) returns nil and an
empty input list also stays nil (Go's append to a nil slice of zero
elements is nil); only a non-empty decoded list yields a non-nil slice. -/
def castToSlice : Option Value → Option (List Value)
  | some (Value.vlist l) => if l.isEmpty then none else some l
  | _ => none

/-- Model of spf13 cast.ToStringMap followed by the Go nil test done by
parsePlugins.  ToStringMapE initializes a non-nil empty Go map and
returns it (with an error that ToStringMap discards) whenever the input
is not a mapping, so the result is nil only for a typed nil
string-keyed Go map, a value that cannot arise from a decoded YAML
document; decoded mappings come back with their entries. -/
def castToStringMap : Value → Option (List (String × Value))
  | Value.vmap m => some m
  | _ => some []

/-- Whitespace test modelling Go's unicode.IsSpace restricted to the code
points that occur in configuration text: ASCII space, tab, newline,
vertical tab, form feed, carriage return, NEL and NBSP. -/
def goIsSpace (c : Char) : Bool :=
  c = ' ' || c = '\t' || c = '\n' || c = '\x0b' || c = '\x0c' || c = '\r' ||
  c.toNat = 133 || c.toNat = 160

/-- Accumulating worker for strings.Fields: walk the characters, cutting a
field at every run of whitespace; acc holds the current field reversed. -/
def fieldsAux : List Char → List Char → List String
  | [], acc => if acc.isEmpty then [] else [String.mk acc.reverse]
  | c :: rest, acc =>
    if goIsSpace c then
      if acc.isEmpty then fieldsAux rest []
      else String.mk acc.reverse :: fieldsAux rest []
    else fieldsAux rest (c :: acc)

/-- Model of Go strings.Fields: split around runs of whitespace, no empty
fields. -/
def goFields (s : String) : List String := fieldsAux s.data []

/-- Decimal value of a digit string (digits already checked by callers). -/
def decValue (cs : List Char) : Nat :=
  cs.foldl (fun a c => a * 10 + (c.toNat - '0'.toNat)) 0

/-- Hex digit test for the IPv6 parser. -/
def isHexDigitCh (c : Char) : Bool :=
  c.isDigit || ('a' ≤ c && c ≤ 'f') || ('A' ≤ c && c ≤ 'F')

/-- Numeric value of one hex digit. -/
def hexDigitVal (c : Char) : Nat :=
  if c.isDigit then c.toNat - '0'.toNat
  else if 'a' ≤ c && c ≤ 'f' then c.toNat - 'a'.toNat + 10
  else c.toNat - 'A'.toNat + 10

/-- Hexadecimal value of a hex-digit string. -/
def hexValue (cs : List Char) : Nat :=
  cs.foldl (fun a c => a * 16 + hexDigitVal c) 0

/-- Split a character list on every occurrence of a separator character
(Go strings.Split semantics: empty pieces are kept). -/
def splitOnChar (sep : Char) : List Char → List (List Char)
  | [] => [[]]
  | c :: rest =>
    let r := splitOnChar sep rest
    if c = sep then [] :: r
    else
      match r with
      | h :: t => (c :: h) :: t
      | [] => [[c]]

/-- The 12 leading bytes Go's net package stores in front of an IPv4
address inside a 16-byte IP (the v4-in-v6 mapped form). -/
def v4MappedLead : List Nat := [0, 0, 0, 0, 0, 0, 0, 0, 0, 0, 255, 255]

/-- One dotted-quad field of Go's parseIPv4: a non-empty run of decimal
digits whose value is at most 255 (Go's dtoi digit cap and the 0xFF check
reject exactly the same strings). -/
def parseV4Field (g : List Char) : Option Nat :=
  if g.isEmpty then none
  else if g.all Char.isDigit then
    if decValue g ≤ 255 then some (decValue g) else none
  else none

/-- Model of Go net.parseIPv4: exactly four dotted fields, returned in the
16-byte mapped form that net.IPv4 produces. -/
def parseIPv4 (cs : List Char) : Option (List Nat) :=
  match (splitOnChar '.' cs).mapM parseV4Field with
  | some [a, b, c, d] => some (v4MappedLead ++ [a, b, c, d])
  | _ => none

/-- One 16-bit IPv6 group of Go's parseIPv6: non-empty hex digits with
value at most 0xFFFF, yielding its two bytes. -/
def parseHexGroup (g : List Char) : Option (List Nat) :=
  if g.isEmpty then none
  else if g.all isHexDigitCh then
    if hexValue g ≤ 65535 then some [hexValue g / 256, hexValue g % 256] else none
  else none

/-- Split a character list at the first occurrence of a double colon,
when there is one (the IPv6 ellipsis). -/
def findColonColon : List Char → Option (List Char × List Char)
  | [] => none
  | [_] => none
  | ':' :: ':' :: rest => some ([], rest)
  | c :: rest => (findColonColon rest).map (fun p => (c :: p.1, p.2))

/-- Parse a colon-separated group sequence to bytes; when v4last is true
the final group may instead be a dotted quad contributing four bytes
(Go's embedded-IPv4 tail, which always terminates the address). -/
def parseGroupSeq (v4last : Bool) : List (List Char) → Option (List Nat)
  | [] => some []
  | [g] =>
    if v4last && g.contains '.' then
      (parseIPv4 g).map (fun ip => ip.drop 12)
    else parseHexGroup g
  | g :: rest => do
    let b ← parseHexGroup g
    let bs ← parseGroupSeq v4last rest
    pure (b ++ bs)

/-- Model of Go net.parseIPv6: at most one ellipsis; without an ellipsis
the groups must supply exactly 16 bytes; with one they must supply at
most 14 (the ellipsis stands for at least one zero group) and the gap is
zero filled; only the final group of the whole address may be an
embedded dotted quad. -/
def parseIPv6 (cs : List Char) : Option (List Nat) :=
  match findColonColon cs with
  | none =>
    match parseGroupSeq true (splitOnChar ':' cs) with
    | some bytes => if bytes.length = 16 then some bytes else none
    | none => none
  | some (l, r) =>
    if (findColonColon r).isSome then none
    else
      let lgs := if l.isEmpty then [] else splitOnChar ':' l
      let rgs := if r.isEmpty then [] else splitOnChar ':' r
      match parseGroupSeq false lgs, parseGroupSeq true rgs with
      | some lb, some rb =>
        if lb.length + rb.length ≤ 14 then
          some (lb ++ List.replicate (16 - lb.length - rb.length) 0 ++ rb)
        else none
      | _, _ => none

/-- Model of Go net.ParseIP: the first dot or colon selects the family
parser; a string containing neither is nil (none). -/
def parseIP (s : String) : Option (List Nat) :=
  match s.data.find? (fun c => c = '.' || c = ':') with
  | some c => if c = '.' then parseIPv4 s.data else parseIPv6 s.data
  | none => none

/-- Model of Go net.IP.To4 on a non-nil IP: a 4-byte IP is itself, a
16-byte IP with the v4-mapped lead yields its last four bytes, anything
else is nil. -/
def ipTo4 (ip : List Nat) : Option (List Nat) :=
  if ip.length = 4 then some ip
  else if ip.length = 16 && ip.take 12 = v4MappedLead then some (ip.drop 12)
  else none

/-- To4 lifted to a possibly-nil IP: Go's To4 on a nil receiver is nil. -/
def goTo4 : Option (List Nat) → Option (List Nat)
  | none => none
  | some ip => ipTo4 ip

/-- Model of Go net.SplitHostPort: split at the last colon; a bracketed
host must close its bracket right before that colon; an unbracketed host
may not itself contain a colon and no brackets may appear anywhere. -/
def splitHostPort (hp : String) : Option (String × String) :=
  let cs := hp.data
  match cs.reverse.findIdx? (fun c => c = ':') with
  | none => none
  | some ri =>
    let i := cs.length - 1 - ri
    if cs.head? = some '[' then
      match cs.findIdx? (fun c => c = ']') with
      | none => none
      | some e =>
        if e + 1 = cs.length then none
        else if e + 1 = i then
          if (cs.drop 1).contains '[' || (cs.drop (e + 1)).contains ']' then none
          else some (String.mk ((cs.drop 1).take (e - 1)), String.mk (cs.drop (i + 1)))
        else none
    else
      if (cs.take i).contains ':' then none
      else if cs.contains '[' || cs.contains ']' then none
      else some (String.mk (cs.take i), String.mk (cs.drop (i + 1)))

/-- Model of Go strconv.Atoi: optional sign, then a non-empty run of
decimal digits, failing on anything else and on values outside the
64-bit machine int range. -/
def goAtoi (s : String) : Option Int :=
  match s.data with
  | '+' :: ds =>
    if ds.isEmpty = false ∧ ds.all Char.isDigit then
      if (decValue ds : Int) ≤ 2 ^ 63 - 1 then some (decValue ds : Int) else none
    else none
  | '-' :: ds =>
    if ds.isEmpty = false ∧ ds.all Char.isDigit then
      if (decValue ds : Int) ≤ 2 ^ 63 then some (-(decValue ds : Int)) else none
    else none
  | ds =>
    if ds.isEmpty = false ∧ ds.all Char.isDigit then
      if (decValue ds : Int) ≤ 2 ^ 63 - 1 then some (decValue ds : Int) else none
    else none

/-- The validation failures of src/config/config.go, one constructor per
distinct error site, matching the spec's taxonomy.  missingListen is the
`missing server%d.listen directive` message, badHostPort the wrapped
net.SplitHostPort error, familyMismatch the `missing or invalid listen
address` message of the two family checks, badPort the `invalid listen
port` message, badPluginsSection the `invalid plugins section, not a
list` message, badPluginEntry the `plugin #%d is not a string map`
message and malformedPlugin the `exactly one plugin per item` message;
noProtocols is Load's `need at least one valid config` failure. -/
inductive ConfigError where
  | missingListen : Nat → ConfigError
  | badHostPort : Nat → ConfigError
  | familyMismatch : Nat → ConfigError
  | badPort : Nat → ConfigError
  | badPluginsSection : ConfigError
  | badPluginEntry : Nat → ConfigError
  | malformedPlugin : ConfigError
  | noProtocols : ConfigError
deriving DecidableEq

/-- Model of Go net.UDPAddr as built by getListenAddress: the IP may be
Go-nil (none) because net.ParseIP's nil result can flow through the v6
family check unchecked. -/
structure UDPAddr where
  ip : Option (List Nat)
  port : Int
deriving DecidableEq

/-- PluginConfig of src/config/config.go: a plugin name and its
whitespace-split argument tokens. -/
structure PluginConfig where
  name : String
  args : List String
deriving DecidableEq

/-- ServerConfig of src/config/config.go: the resolved listener and the
ordered plugin list of one protocol family. -/
structure ServerConfig where
  listener : UDPAddr
  plugins : List PluginConfig
deriving DecidableEq

/-- Config of src/config/config.go restricted to its decoded state: the
optional per-family server configurations (the embedded viper handle is
the input document, passed separately in this model). -/
structure Config where
  server6 : Option ServerConfig
  server4 : Option ServerConfig
deriving DecidableEq

/-- Worker of parsePlugins in src/config/config.go, carrying the element
index: cast each element to a string map (nil only for a typed nil Go
map, see castToStringMap), demand exactly one key, and turn the single
entry into a PluginConfig whose args are the whitespace-split string
form of the value. -/
def parsePluginsAux : Nat → List Value → Except ConfigError (List PluginConfig)
  | _, [] => Except.ok []
  | idx, val :: rest =>
    match castToStringMap val with
    | none => Except.error (ConfigError.badPluginEntry idx)
    | some [(k, v)] =>
      match parsePluginsAux (idx + 1) rest with
      | Except.error e => Except.error e
      | Except.ok ps =>
        Except.ok ({ name := k, args := goFields (castToString v) } :: ps)
    | some _ => Except.error ConfigError.malformedPlugin

/-- parsePlugins of src/config/config.go. -/
def parsePlugins (l : List Value) : Except ConfigError (List PluginConfig) :=
  parsePluginsAux 0 l

/-- Section key consulted for a protocol family. -/
def serverSection (v6 : Bool) : String := if v6 then "server6" else "server4"

/-- Protocol version number used in error values. -/
def verNum (v6 : Bool) : Nat := if v6 then 6 else 4

/-- getListenAddress of src/config/config.go: absent section means
legitimately unconfigured (ok none); otherwise the listen directive is
mandatory, must split as host:port, the parsed IP must satisfy the To4
family test of the requested family, and the port must satisfy Atoi. -/
def getListenAddress (doc : Doc) (v6 : Bool) : Except ConfigError (Option UDPAddr) :=
  match viperGet doc [serverSection v6] with
  | none => Except.ok none
  | some _ =>
    let addr := goGetString doc [serverSection v6, "listen"]
    if addr = "" then Except.error (ConfigError.missingListen (verNum v6))
    else
      match splitHostPort addr with
      | none => Except.error (ConfigError.badHostPort (verNum v6))
      | some (ipStr, portStr) =>
        let ip := parseIP ipStr
        if v6 && (goTo4 ip).isSome then
          Except.error (ConfigError.familyMismatch (verNum v6))
        else if !v6 && (goTo4 ip).isNone then
          Except.error (ConfigError.familyMismatch (verNum v6))
        else
          match goAtoi portStr with
          | none => Except.error (ConfigError.badPort (verNum v6))
          | some port => Except.ok (some { ip := ip, port := port })

/-- getPlugins of src/config/config.go.  The source reads the fixed path
server6.plugins for both families (its v6 parameter is unused), which
this model reproduces byte for byte; the family-correct behaviour the
spec intends is getPluginsIntended below. -/
def getPlugins (doc : Doc) (_v6 : Bool) : Except ConfigError (List PluginConfig) :=
  match castToSlice (viperGet doc ["server6", "plugins"]) with
  | none => Except.error ConfigError.badPluginsSection
  | some pluginList => parsePlugins pluginList

/-- Modelled from the spec: the family-correct plugin accessor the spec
declares as the intended behaviour of getPlugins (read each protocol's
own plugins path), against which the source's fixed v6 path is compared. -/
def getPluginsIntended (doc : Doc) (v6 : Bool) : Except ConfigError (List PluginConfig) :=
  match castToSlice (viperGet doc [serverSection v6, "plugins"]) with
  | none => Except.error ConfigError.badPluginsSection
  | some pluginList => parsePlugins pluginList

/-- parseConfig of src/config/config.go for one family: resolve the
listener (absent section yields no ServerConfig and no error), then the
plugins, and assemble the ServerConfig. -/
def parseConfig (doc : Doc) (v6 : Bool) : Except ConfigError (Option ServerConfig) :=
  match getListenAddress doc v6 with
  | Except.error e => Except.error e
  | Except.ok none => Except.ok none
  | Except.ok (some addr) =>
    match getPlugins doc v6 with
    | Except.error e => Except.error e
    | Except.ok plugins => Except.ok (some { listener := addr, plugins := plugins })

/-- Load of src/config/config.go after the file has been read and
decoded (file discovery and YAML decoding are viper's work, outside this
core): build v6 then v4, abort on the first failure, and demand at least
one configured protocol. -/
def loadConfig (doc : Doc) : Except ConfigError Config :=
  match parseConfig doc true with
  | Except.error e => Except.error e
  | Except.ok s6 =>
    match parseConfig doc false with
    | Except.error e => Except.error e
    | Except.ok s4 =>
      if s6.isNone && s4.isNone then Except.error ConfigError.noProtocols
      else Except.ok { server6 := s6, server4 := s4 }

/-- Absent protocol section means getListenAddress reports unconfigured. -/
theorem getListenAddress_absent (doc : Doc) (b : Bool)
    (h : viperGet doc [serverSection b] = none) :
    getListenAddress doc b = Except.ok none := by
  simp only [getListenAddress, h]

/-- C1: the per-protocol builder is claimed to read each family's own
plugins path, but getPlugins ignores its family flag and always reads
server6.plugins; on a document whose two sections carry different plugin
lists, Server4.Plugins comes out as the v6 section's list, while the
family-correct accessor the spec intends would return the v4 section's
list. -/
theorem c1_v4_plugins_come_from_v6_section :
    loadConfig
      [("server6", Value.vmap [("listen", Value.vstr "[::1]:547"),
        ("plugins", Value.vlist [Value.vmap [("p6", Value.vstr "a")]])]),
       ("server4", Value.vmap [("listen", Value.vstr "10.0.0.1:67"),
        ("plugins", Value.vlist [Value.vmap [("p4", Value.vstr "b")]])])] =
      Except.ok
        { server6 := some
            { listener := { ip := some [0, 0, 0, 0, 0, 0, 0, 0, 0, 0, 0, 0, 0, 0, 0, 1], port := 547 },
              plugins := [{ name := "p6", args := ["a"] }] },
          server4 := some
            { listener := { ip := some (v4MappedLead ++ [10, 0, 0, 1]), port := 67 },
              plugins := [{ name := "p6", args := ["a"] }] } } ∧
    getPluginsIntended
      [("server6", Value.vmap [("listen", Value.vstr "[::1]:547"),
        ("plugins", Value.vlist [Value.vmap [("p6", Value.vstr "a")]])]),
       ("server4", Value.vmap [("listen", Value.vstr "10.0.0.1:67"),
        ("plugins", Value.vlist [Value.vmap [("p4", Value.vstr "b")]])])] false =
      Except.ok [{ name := "p4", args := ["b"] }] :=
  ⟨rfl, rfl⟩

/-- C2 counterexample: a v6 section with a valid listener and no plugins
key is claimed to succeed with an empty plugin list, but the absent value
casts to a nil Go slice, so the builder fails with the invalid plugins
section error. -/
theorem c2_counterexample :
    parseConfig [("server6", Value.vmap [("listen", Value.vstr "[::1]:547")])] true =
      Except.error ConfigError.badPluginsSection :=
  rfl

/-- C2 amended: whenever the consulted plugins value (always the v6
section's path, for either family) is absent, or present but not a list,
the builder fails with the invalid plugins section error; absence is not
treated as an empty list. -/
theorem c2_absent_or_nonlist_plugins_fail (doc : Doc) (b : Bool)
    (h : viperGet doc ["server6", "plugins"] = none ∨
      ∃ v, viperGet doc ["server6", "plugins"] = some v ∧ ∀ l, v ≠ Value.vlist l) :
    getPlugins doc b = Except.error ConfigError.badPluginsSection := by
  unfold getPlugins
  rcases h with h | ⟨v, hv, hnl⟩
  · rw [h]; rfl
  · rw [hv]
    cases v with
    | vlist l => exact absurd rfl (hnl l)
    | vstr s => rfl
    | vint n => rfl
    | vbool b2 => rfl
    | vmap m => rfl

/-- C2 witness: the amended theorem applied to a section whose plugins
value is a plain string. -/
theorem c2_witness :
    getPlugins
      [("server6", Value.vmap [("listen", Value.vstr "[::1]:547"),
        ("plugins", Value.vstr "oops")])] true =
      Except.error ConfigError.badPluginsSection :=
  c2_absent_or_nonlist_plugins_fail _ true
    (Or.inr ⟨Value.vstr "oops", rfl, fun _ h => Value.noConfusion h⟩)

/-- C3 counterexample: the unbracketed literal 2001:db8::1:547 is claimed
to resolve under the v6 section, but Go's SplitHostPort rejects an
unbracketed host containing colons, so resolution fails with the
host-port split error rather than succeeding. -/
theorem c3_counterexample :
    getListenAddress [("server6", Value.vmap [("listen", Value.vstr "2001:db8::1:547")])] true =
      Except.error (ConfigError.badHostPort 6) :=
  rfl

/-- C3 amended: the bracketed form of the same address resolves under the
v6 section to IP 2001:db8::1 and port 547 and fails under the v4 section
with the family mismatch error, while the unbracketed form fails with
the host-port split error under either family. -/
theorem c3_bracketed_v6_listen :
    getListenAddress [("server6", Value.vmap [("listen", Value.vstr "[2001:db8::1]:547")])] true =
      Except.ok (some
        { ip := some [32, 1, 13, 184, 0, 0, 0, 0, 0, 0, 0, 0, 0, 0, 0, 1], port := 547 }) ∧
    getListenAddress [("server4", Value.vmap [("listen", Value.vstr "[2001:db8::1]:547")])] false =
      Except.error (ConfigError.familyMismatch 4) ∧
    getListenAddress [("server6", Value.vmap [("listen", Value.vstr "2001:db8::1:547")])] true =
      Except.error (ConfigError.badHostPort 6) ∧
    getListenAddress [("server4", Value.vmap [("listen", Value.vstr "2001:db8::1:547")])] false =
      Except.error (ConfigError.badHostPort 4) :=
  ⟨rfl, rfl, rfl, rfl⟩

/-- C4 counterexample: bad-address:99 is claimed to fail with the
host-port split error under either family, but the host splits fine and
parses to a nil IP, which sails through the v6 family check (nil.To4 is
nil), so the v6 resolver accepts it with a nil IP; under v4 it does fail,
but with the family mismatch error, not the split error. -/
theorem c4_counterexample :
    getListenAddress [("server6", Value.vmap [("listen", Value.vstr "bad-address:99")])] true =
      Except.ok (some { ip := none, port := 99 }) ∧
    getListenAddress [("server4", Value.vmap [("listen", Value.vstr "bad-address:99")])] false =
      Except.error (ConfigError.familyMismatch 4) :=
  ⟨rfl, rfl⟩

/-- C4 amended: for every configured section a listen value that does not
split as host:port fails with the host-port split error; a host that is
not an IP literal yields a nil IP, failing with the family mismatch
error under v4 (in particular bad-address:99) while being accepted under
v6; a port that is not a signed decimal integer fails with the invalid
port error (in particular 10.0.0.1:notaport under v4), but out-of-range
ports such as 70000 and -1 are accepted. -/
theorem c4_bad_host_or_port (doc : Doc) (b : Bool) (sv : Value)
    (h1 : viperGet doc [serverSection b] = some sv)
    (h2 : goGetString doc [serverSection b, "listen"] ≠ "")
    (h3 : splitHostPort (goGetString doc [serverSection b, "listen"]) = none) :
    getListenAddress doc b = Except.error (ConfigError.badHostPort (verNum b)) ∧
    getListenAddress [("server4", Value.vmap [("listen", Value.vstr "bad-address:99")])] false =
      Except.error (ConfigError.familyMismatch 4) ∧
    getListenAddress [("server4", Value.vmap [("listen", Value.vstr "10.0.0.1:notaport")])] false =
      Except.error (ConfigError.badPort 4) ∧
    getListenAddress [("server4", Value.vmap [("listen", Value.vstr "10.0.0.1:70000")])] false =
      Except.ok (some { ip := some (v4MappedLead ++ [10, 0, 0, 1]), port := 70000 }) ∧
    getListenAddress [("server4", Value.vmap [("listen", Value.vstr "10.0.0.1:-1")])] false =
      Except.ok (some { ip := some (v4MappedLead ++ [10, 0, 0, 1]), port := -1 }) := by
  refine ⟨?_, rfl, rfl, rfl, rfl⟩
  simp only [getListenAddress, h1, h2, h3]
  rfl

/-- C4 witness: the amended theorem applied to a listen value with no
colon at all. -/
theorem c4_witness :
    getListenAddress [("server6", Value.vmap [("listen", Value.vstr "nocolon")])] true =
      Except.error (ConfigError.badHostPort 6) :=
  (c4_bad_host_or_port [("server6", Value.vmap [("listen", Value.vstr "nocolon")])] true
    (Value.vmap [("listen", Value.vstr "nocolon")]) rfl (by decide) rfl).1

/-- C5: family consistency of the listen resolver.  Whenever the host of
a configured listen directive parses as an IP literal, the v6 resolver
rejects an address representable as IPv4 (To4 non-nil) and the v4
resolver rejects one not representable as IPv4 (To4 nil), both with the
family mismatch error; in particular 10.0.0.1:67 resolves under the v4
section and fails under the v6 section with the family mismatch error. -/
theorem c5_family_consistency :
    (∀ (doc : Doc) (sv : Value) (hs ps : String) (ip : List Nat),
      viperGet doc [serverSection true] = some sv →
      goGetString doc [serverSection true, "listen"] ≠ "" →
      splitHostPort (goGetString doc [serverSection true, "listen"]) = some (hs, ps) →
      parseIP hs = some ip →
      (ipTo4 ip).isSome = true →
      getListenAddress doc true = Except.error (ConfigError.familyMismatch 6)) ∧
    (∀ (doc : Doc) (sv : Value) (hs ps : String) (ip : List Nat),
      viperGet doc [serverSection false] = some sv →
      goGetString doc [serverSection false, "listen"] ≠ "" →
      splitHostPort (goGetString doc [serverSection false, "listen"]) = some (hs, ps) →
      parseIP hs = some ip →
      ipTo4 ip = none →
      getListenAddress doc false = Except.error (ConfigError.familyMismatch 4)) ∧
    getListenAddress [("server4", Value.vmap [("listen", Value.vstr "10.0.0.1:67")])] false =
      Except.ok (some { ip := some (v4MappedLead ++ [10, 0, 0, 1]), port := 67 }) ∧
    getListenAddress [("server6", Value.vmap [("listen", Value.vstr "10.0.0.1:67")])] true =
      Except.error (ConfigError.familyMismatch 6) := by
  refine ⟨?_, ?_, rfl, rfl⟩
  · intro doc sv hs ps ip h1 h2 h3 h4 h5
    simp only [getListenAddress, h1, h2, h3, h4, goTo4, h5]
    rfl
  · intro doc sv hs ps ip h1 h2 h3 h4 h5
    simp only [getListenAddress, h1, h2, h3, h4, goTo4, h5]
    simp [verNum]

/-- C5 witness: the v6 half of the family consistency theorem applied to
the v4-mapped parse of 10.0.0.1. -/
theorem c5_witness :
    getListenAddress [("server6", Value.vmap [("listen", Value.vstr "10.0.0.1:67")])] true =
      Except.error (ConfigError.familyMismatch 6) :=
  c5_family_consistency.1 [("server6", Value.vmap [("listen", Value.vstr "10.0.0.1:67")])]
    (Value.vmap [("listen", Value.vstr "10.0.0.1:67")]) "10.0.0.1" "67"
    (v4MappedLead ++ [10, 0, 0, 1]) rfl (by decide) rfl rfl rfl

/-- C6: a document configuring neither protocol section makes the loader
fail with the no-protocol error, and every configuration a successful
load returns carries at least one of the two server configurations. -/
theorem c6_at_least_one_protocol :
    (∀ doc : Doc, viperGet doc ["server6"] = none → viperGet doc ["server4"] = none →
      loadConfig doc = Except.error ConfigError.noProtocols) ∧
    (∀ (doc : Doc) (c : Config), loadConfig doc = Except.ok c →
      c.server6 ≠ none ∨ c.server4 ≠ none) := by
  constructor
  · intro doc h6 h4
    have g6 : getListenAddress doc true = Except.ok none := getListenAddress_absent doc true h6
    have g4 : getListenAddress doc false = Except.ok none := getListenAddress_absent doc false h4
    simp only [loadConfig, parseConfig, g6, g4]
    rfl
  · intro doc c h
    unfold loadConfig at h
    rcases hp6 : parseConfig doc true with e6 | s6
    · simp only [hp6] at h
      exact Except.noConfusion h
    · rcases hp4 : parseConfig doc false with e4 | s4
      · simp only [hp6, hp4] at h
        exact Except.noConfusion h
      · simp only [hp6, hp4] at h
        by_cases hn : (s6.isNone && s4.isNone) = true
        · rw [if_pos hn] at h
          cases h
        · rw [if_neg hn] at h
          injection h with h2
          subst h2
          cases s6 with
          | some x => exact Or.inl (by simp)
          | none =>
            cases s4 with
            | some y => exact Or.inr (by simp)
            | none => exact absurd rfl hn

/-- C6 witness: the empty document loads to the no-protocol error. -/
theorem c6_witness :
    loadConfig [] = Except.error ConfigError.noProtocols :=
  c6_at_least_one_protocol.1 [] rfl rfl

/-- C7 counterexample: a document defining only a v6 section with a valid
listener (and no plugins key) is claimed to load with Server6 set and no
error, but the loader also demands a plugins list (absent casts to nil),
so the load fails with the invalid plugins section error. -/
theorem c7_counterexample :
    loadConfig [("server6", Value.vmap [("listen", Value.vstr "[::1]:547")])] =
      Except.error ConfigError.badPluginsSection :=
  rfl

/-- C7 amended: for every document whose v6 section resolves to a
listener and a plugin list and which has no v4 section, the load
succeeds with Server6 populated and Server4 absent; a missing protocol
section by itself is a not-configured signal, never an error. -/
theorem c7_v6_only_load (doc : Doc) (a : UDPAddr) (ps : List PluginConfig)
    (h6 : getListenAddress doc true = Except.ok (some a))
    (hp : getPlugins doc true = Except.ok ps)
    (h4 : viperGet doc ["server4"] = none) :
    loadConfig doc = Except.ok { server6 := some { listener := a, plugins := ps }, server4 := none } := by
  have g4 : getListenAddress doc false = Except.ok none := getListenAddress_absent doc false h4
  simp only [loadConfig, parseConfig, h6, hp, g4]
  rfl

/-- C7 witness: a v6-only document with a valid listener and one plugin
loads to Server6 set and Server4 absent. -/
theorem c7_witness :
    loadConfig [("server6", Value.vmap [("listen", Value.vstr "[::1]:547"),
      ("plugins", Value.vlist [Value.vmap [("lease_time", Value.vstr "3600")]])])] =
      Except.ok
        { server6 := some
            { listener := { ip := some [0, 0, 0, 0, 0, 0, 0, 0, 0, 0, 0, 0, 0, 0, 0, 1], port := 547 },
              plugins := [{ name := "lease_time", args := ["3600"] }] },
          server4 := none } :=
  c7_v6_only_load _ _ _ rfl rfl rfl

/-- The string-map cast never yields Go nil for a decoded document value. -/
theorem castToStringMap_ne_none (v : Value) : castToStringMap v ≠ none := by
  cases v <;> simp [castToStringMap]

/-- Number of keys the plugin-entry cast produces for an element. -/
def entryKeyCount (e : Value) : Nat := ((castToStringMap e).getD []).length

/-- Any element whose cast does not have exactly one key makes the plugin
parser fail with the malformed-plugin error, at any starting index. -/
theorem parsePluginsAux_bad_entry (l : List Value) :
    ∀ idx : Nat, (∃ e ∈ l, entryKeyCount e ≠ 1) →
    parsePluginsAux idx l = Except.error ConfigError.malformedPlugin := by
  induction l with
  | nil =>
    intro idx h
    rcases h with ⟨e, he, _⟩
    cases he
  | cons val rest ih =>
    intro idx h
    rcases hm : castToStringMap val with _ | conf
    · exact absurd hm (castToStringMap_ne_none val)
    · rcases conf with _ | ⟨⟨k, v⟩, conf2⟩
      · simp only [parsePluginsAux, hm]
      · rcases conf2 with _ | ⟨q2, qs⟩
        · have hr : parsePluginsAux (idx + 1) rest = Except.error ConfigError.malformedPlugin := by
            apply ih
            rcases h with ⟨e, he, hne⟩
            rcases List.mem_cons.mp he with rfl | ht
            · exact absurd (by simp [entryKeyCount, hm]) hne
            · exact ⟨e, ht, hne⟩
          simp only [parsePluginsAux, hm, hr]
        · simp only [parsePluginsAux, hm]

/-- C8 counterexample: an element that is not convertible to a string map
is claimed to fail with the indexed invalid-plugin-entry error, but the
cast hands back a non-nil empty map, so the parser fails with the
malformed-plugin error instead. -/
theorem c8_counterexample :
    parsePlugins [Value.vstr "x"] = Except.error ConfigError.malformedPlugin ∧
    parsePlugins [Value.vstr "x"] ≠ Except.error (ConfigError.badPluginEntry 0) := by
  constructor
  · rfl
  · intro h
    rw [show parsePlugins [Value.vstr "x"] = Except.error ConfigError.malformedPlugin from rfl] at h
    exact ConfigError.noConfusion (Except.error.inj h)

/-- C8 amended: an element that cannot be converted to a mapping is
coerced to an empty mapping by the cast (whose nil result would need a
typed nil Go map, unreachable from decoded document values), so it fails
with the malformed-plugin error, without an index, exactly as mappings
with zero keys or more than one key do; the indexed
invalid-plugin-entry failure is unreachable. -/
theorem c8_malformed_entries_fail :
    (∀ l : List Value, (∃ e ∈ l, entryKeyCount e ≠ 1) →
      parsePlugins l = Except.error ConfigError.malformedPlugin) ∧
    parsePlugins [Value.vmap []] = Except.error ConfigError.malformedPlugin ∧
    parsePlugins [Value.vmap [("a", Value.vstr "1"), ("b", Value.vstr "2")]] =
      Except.error ConfigError.malformedPlugin :=
  ⟨fun l h => parsePluginsAux_bad_entry l 0 h, rfl, rfl⟩

/-- C8 witness: the amended theorem applied to a list holding one plain
string element. -/
theorem c8_witness :
    parsePlugins [Value.vstr "x"] = Except.error ConfigError.malformedPlugin :=
  c8_malformed_entries_fail.1 [Value.vstr "x"]
    ⟨Value.vstr "x", List.Mem.head _, by decide⟩

/-- The PluginConfig a single well-formed entry denotes: its one key and
the whitespace-split string form of its value. -/
def pluginOfEntry (e : Value) : PluginConfig :=
  match castToStringMap e with
  | some [(k, v)] => { name := k, args := goFields (castToString v) }
  | _ => { name := "", args := [] }

/-- On a list of single-key entries the plugin parser succeeds and maps
each entry in place, at any starting index. -/
theorem parsePluginsAux_valid (l : List Value) :
    ∀ idx : Nat, (∀ e ∈ l, ∃ k v, castToStringMap e = some [(k, v)]) →
    parsePluginsAux idx l = Except.ok (l.map pluginOfEntry) := by
  induction l with
  | nil => intro idx _; rfl
  | cons val rest ih =>
    intro idx h
    rcases h val (List.mem_cons_self val rest) with ⟨k, v, hm⟩
    have hr := ih (idx + 1) (fun e he => h e (List.mem_cons_of_mem val he))
    simp only [parsePluginsAux, hm, hr, List.map, pluginOfEntry]

/-- C9: on every valid plugin list the parser returns exactly one
PluginConfig per entry, in input order, the single key becoming the name
and the value's string form split on whitespace runs becoming the args;
an empty value yields empty args, and the lease_time example parses as
specified. -/
theorem c9_order_and_mapping :
    (∀ l : List Value, (∀ e ∈ l, ∃ k v, castToStringMap e = some [(k, v)]) →
      parsePlugins l = Except.ok (l.map pluginOfEntry)) ∧
    parsePlugins [Value.vmap [("lease_time", Value.vstr "3600")]] =
      Except.ok [{ name := "lease_time", args := ["3600"] }] ∧
    parsePlugins [Value.vmap [("x", Value.vstr "")]] =
      Except.ok [{ name := "x", args := [] }] ∧
    parsePlugins [Value.vmap [("b", Value.vstr "2")], Value.vmap [("a", Value.vstr "1")]] =
      Except.ok [{ name := "b", args := ["2"] }, { name := "a", args := ["1"] }] :=
  ⟨fun l h => parsePluginsAux_valid l 0 h, rfl, rfl, rfl⟩

/-- C9 witness: the mapping theorem applied to the one-entry lease_time
list. -/
theorem c9_witness :
    parsePlugins [Value.vmap [("lease_time", Value.vstr "3600")]] =
      Except.ok ([Value.vmap [("lease_time", Value.vstr "3600")]].map pluginOfEntry) :=
  c9_order_and_mapping.1 [Value.vmap [("lease_time", Value.vstr "3600")]]
    (fun e he => by
      cases he with
      | head => exact ⟨"lease_time", Value.vstr "3600", rfl⟩
      | tail _ ht => cases ht)

/-- Every token the field splitter emits is non-empty and free of
whitespace, provided the pending accumulator already is. -/
theorem fieldsAux_tokens (cs : List Char) :
    ∀ acc : List Char, (∀ c ∈ acc, goIsSpace c = false) →
    ∀ t ∈ fieldsAux cs acc, t.data ≠ [] ∧ ∀ c ∈ t.data, goIsSpace c = false := by
  induction cs with
  | nil =>
    intro acc hacc t ht
    simp only [fieldsAux] at ht
    by_cases he : acc.isEmpty = true
    · rw [if_pos he] at ht
      cases ht
    · rw [if_neg he] at ht
      rcases List.mem_singleton.mp ht with rfl
      constructor
      · show acc.reverse ≠ []
        simp only [ne_eq, List.reverse_eq_nil_iff]
        intro hnil
        subst hnil
        simp at he
      · intro c hc
        exact hacc c (List.mem_reverse.mp hc)
  | cons c rest ih =>
    intro acc hacc t ht
    simp only [fieldsAux] at ht
    by_cases hs : goIsSpace c = true
    · rw [if_pos hs] at ht
      by_cases he : acc.isEmpty = true
      · rw [if_pos he] at ht
        exact ih [] (fun c2 hc2 => absurd hc2 (List.not_mem_nil c2)) t ht
      · rw [if_neg he] at ht
        rcases List.mem_cons.mp ht with rfl | ht2
        · constructor
          · show acc.reverse ≠ []
            simp only [ne_eq, List.reverse_eq_nil_iff]
            intro hnil
            subst hnil
            simp at he
          · intro c2 hc2
            exact hacc c2 (List.mem_reverse.mp hc2)
        · exact ih [] (fun c2 hc2 => absurd hc2 (List.not_mem_nil c2)) t ht2
    · rw [if_neg hs] at ht
      refine ih (c :: acc) ?_ t ht
      intro c2 hc2
      rcases List.mem_cons.mp hc2 with rfl | h3
      · simpa using hs
      · exact hacc c2 h3

/-- Every args field the plugin parser produces is a whitespace split of
some string. -/
theorem parsePluginsAux_args_shape (l : List Value) :
    ∀ (idx : Nat) (ps : List PluginConfig), parsePluginsAux idx l = Except.ok ps →
    ∀ p ∈ ps, ∃ s : String, p.args = goFields s := by
  induction l with
  | nil =>
    intro idx ps h p hp
    injection h with h2
    subst h2
    cases hp
  | cons val rest ih =>
    intro idx ps h p hp
    rcases hm : castToStringMap val with _ | conf
    · exact absurd hm (castToStringMap_ne_none val)
    · rcases conf with _ | ⟨⟨k, v⟩, conf2⟩
      · simp only [parsePluginsAux, hm] at h
        exact Except.noConfusion h
      · rcases conf2 with _ | ⟨q2, qs⟩
        · simp only [parsePluginsAux, hm] at h
          rcases hr : parsePluginsAux (idx + 1) rest with e | ps3
          · simp only [hr] at h
            exact Except.noConfusion h
          · simp only [hr] at h
            injection h with h2
            subst h2
            rcases List.mem_cons.mp hp with rfl | h3
            · exact ⟨castToString v, rfl⟩
            · exact ih (idx + 1) ps3 hr p h3
        · simp only [parsePluginsAux, hm] at h
          exact Except.noConfusion h

/-- Args produced by getPlugins are whitespace splits of some string. -/
theorem getPlugins_args_shape (doc : Doc) (b : Bool) (ps : List PluginConfig)
    (h : getPlugins doc b = Except.ok ps) :
    ∀ p ∈ ps, ∃ s : String, p.args = goFields s := by
  unfold getPlugins at h
  rcases hc : castToSlice (viperGet doc ["server6", "plugins"]) with _ | pl
  · simp only [hc] at h
    exact Except.noConfusion h
  · simp only [hc] at h
    exact parsePluginsAux_args_shape pl 0 ps h

/-- C10: in every ServerConfig a successful per-protocol parse produces,
the plugins sequence is a genuine (possibly empty) list — the source
allocates it with a zero-length make, never leaving it Go-nil — and
every token of every plugin's args is a non-empty string containing no
whitespace. -/
theorem c10_args_tokens (doc : Doc) (b : Bool) (sc : ServerConfig)
    (h : parseConfig doc b = Except.ok (some sc)) :
    ∀ p ∈ sc.plugins, ∀ a ∈ p.args, a.data ≠ [] ∧ ∀ c ∈ a.data, goIsSpace c = false := by
  unfold parseConfig at h
  rcases hl : getListenAddress doc b with e | oa
  · simp only [hl] at h
    exact Except.noConfusion h
  · rcases oa with _ | addr
    · simp only [hl] at h
      injection h with h2
      exact Option.noConfusion h2
    · simp only [hl] at h
      rcases hp : getPlugins doc b with e | ps
      · simp only [hp] at h
        exact Except.noConfusion h
      · simp only [hp] at h
        injection h with h2
        injection h2 with h3
        subst h3
        intro p hp2 a ha
        obtain ⟨s, hs⟩ := getPlugins_args_shape doc b ps hp p hp2
        rw [hs] at ha
        exact fieldsAux_tokens s.data [] (fun c2 hc2 => absurd hc2 (List.not_mem_nil c2)) a ha

/-- C10 witness: the token invariant instantiated at a concrete
successful parse, for the lease_time plugin's single argument. -/
theorem c10_witness :
    ("3600" : String).data ≠ [] ∧ ∀ c ∈ ("3600" : String).data, goIsSpace c = false :=
  c10_args_tokens
    [("server6", Value.vmap [("listen", Value.vstr "[::1]:547"),
      ("plugins", Value.vlist [Value.vmap [("lease_time", Value.vstr "3600")]])])] true
    { listener := { ip := some [0, 0, 0, 0, 0, 0, 0, 0, 0, 0, 0, 0, 0, 0, 0, 1], port := 547 },
      plugins := [{ name := "lease_time", args := ["3600"] }] }
    rfl
    { name := "lease_time", args := ["3600"] } (List.Mem.head _)
    "3600" (List.Mem.head _)
